import Mathlib

/-!
Verification of the mzpricer repository: a binomial-lattice American option
pricer (`mzpricer-core/src/pricer.rs`) together with the duplicated export
wrapper copy (`_lib.rs`).

Floating-point arithmetic is embedded as exact real arithmetic: every `f64`
becomes an `ℝ`, `exp`/`sqrt` become `Real.exp`/`Real.sqrt`, and Rust's
in-place arrays become functional state passed through the loops.  Division
by zero follows Lean's `x / 0 = 0` convention; the only place the source can
divide by zero is the risk-neutral probability `p = (a - d)/(u - d)` when
`delta_t = 0`, where Rust produces `NaN` and then `f64::max` (which ignores
`NaN`) selects the intrinsic value — the Lean convention `p = 0` makes the
continuation value collapse to the same intrinsic result, so the two
semantics agree on the function's output there.
-/

namespace MzpricerCore

/-- OptionType from `mzpricer-core/src/pricer.rs` lines 1-5. -/
inductive OptionType
  | Call
  | Put
deriving DecidableEq, Repr

/-- TimeDuration from `mzpricer-core/src/pricer.rs` lines 7-11. -/
structure TimeDuration where
  value : ℝ
  factor : ℝ

/-- PriceError from `mzpricer-core/src/pricer.rs` lines 13-18. -/
inductive PriceError
  | None
  | NonConvergence
  | BadParams
deriving DecidableEq, Repr

/-- to_years from `mzpricer-core/src/pricer.rs` lines 26-29: `value / factor`. -/
noncomputable def TimeDuration.to_years (t : TimeDuration) : ℝ :=
  t.value / t.factor

/-- payoff sign, line 99-102: Call gives `(1.0, -k)`, Put gives `(-1.0, k)`. -/
noncomputable def optSign : OptionType → ℝ
  | OptionType.Call => 1
  | OptionType.Put => -1

/-- payoff base, line 99-102: Call gives `-k`, Put gives `k`. -/
noncomputable def optBase (k : ℝ) : OptionType → ℝ
  | OptionType.Call => -k
  | OptionType.Put => k

/-- payoff applied at a node: `(sign * x + base).max(0.0)` (lines 127 and 139). -/
noncomputable def payoff (sign base x : ℝ) : ℝ :=
  max (sign * x + base) 0

/-- terminal stock-price recurrence of `option_price_` (lines 120-123), seen
from the top node: `stockFromTop kk` is the value the loop stores in
`stock_price[n - kk]`, i.e. `stock_price[n] = s * u^n` and each next (lower)
entry is the previous one times `d/u`. -/
noncomputable def stockFromTop (s u d : ℝ) (n : ℕ) : ℕ → ℝ
  | 0 => s * u ^ n
  | kk + 1 => stockFromTop s u d n kk * (d / u)

/-- stock_price[i] after the fill loop of lines 120-123. -/
noncomputable def stock_price (s u d : ℝ) (n i : ℕ) : ℝ :=
  stockFromTop s u d n (n - i)

/-- option_price[i] after the terminal-payoff loop of lines 126-128. -/
noncomputable def terminalOption (s u d sign base : ℝ) (n i : ℕ) : ℝ :=
  payoff sign base (stock_price s u d n i)

/-- one pass of the inner `for j in 0..i` loop of lines 131-145, acting on the
option-price array `V`.  Entry `j < i` becomes
`max(intrinsic, (p*V[j+1] + (1-p)*V[j]) * df)` with the node spot
`s * u^j * d^(i-1-j)`; entries `j ≥ i` are left untouched.  (The loop reads
`V[j+1]` before the `j+1` iteration overwrites it, so one pass is a pure
function of the previous array.) -/
noncomputable def backStep (s u d p df sign base : ℝ) (i : ℕ) (V : ℕ → ℝ) : ℕ → ℝ :=
  fun j =>
    if j < i then
      max (payoff sign base (s * u ^ j * d ^ (i - 1 - j)))
        ((p * V (j + 1) + (1 - p) * V j) * df)
    else V j

/-- the outer `for i in (1..=n).rev()` loop of lines 131-145: `backIter kk` is
the array after the passes `i = n, n-1, ..., n-kk+1` have run. -/
noncomputable def backIter (s u d p df sign base : ℝ) (n : ℕ) : ℕ → (ℕ → ℝ)
  | 0 => terminalOption s u d sign base n
  | kk + 1 => backStep s u d p df sign base (n - kk) (backIter s u d p df sign base n kk)

/-- option_price_ from `mzpricer-core/src/pricer.rs` lines 96-148: the
binomial-tree American option pricing kernel.  Returns `option_price[0]`
after the full backward induction. -/
noncomputable def option_price_ (s k delta_t r sigma : ℝ) (cp : OptionType) (n : ℕ) : ℝ :=
  let sign := optSign cp
  let base := optBase k cp
  let u := Real.exp (sigma * Real.sqrt delta_t)
  let d := 1 / u
  let a := Real.exp (r * delta_t)
  let p := (a - d) / (u - d)
  let df := Real.exp (-r * delta_t)
  backIter s u d p df sign base n n 0

/-- option_price_scalar from lines 59-70: computes `delta_t = to_years / precision`
and calls the kernel. -/
noncomputable def option_price_scalar (s k : ℝ) (t : TimeDuration) (r sigma : ℝ)
    (cp : OptionType) (precision : ℕ) : ℝ :=
  option_price_ s k (t.to_years / precision) r sigma cp precision

end MzpricerCore

namespace MzpricerCore

theorem backIter_nonneg (s u d p df sign base : ℝ) (n : ℕ) :
    0 ≤ backIter s u d p df sign base n n 0 := by
  cases n with
  | zero =>
    simp only [backIter, terminalOption, payoff]
    exact le_max_right _ _
  | succ m =>
    show 0 ≤ backStep s u d p df sign base (m + 1 - m) (backIter s u d p df sign base (m + 1) m) 0
    have h : m + 1 - m = 1 := by omega
    rw [h]
    simp only [backStep, payoff]
    rw [if_pos (by norm_num)]
    exact le_trans (le_max_right _ 0) (le_max_left _ _)

end MzpricerCore

namespace MzpricerCore

theorem stockFromTop_closed (s u d : ℝ) (hu : u ≠ 0) (n : ℕ) :
    ∀ kk : ℕ, kk ≤ n → stockFromTop s u d n kk = s * u ^ (n - kk) * d ^ kk := by
  intro kk
  induction kk with
  | zero => intro _; simp [stockFromTop]
  | succ m ih =>
    intro h
    have hm : m ≤ n := le_of_lt (Nat.lt_of_lt_of_le (Nat.lt_succ_self m) h)
    have hnm : n - m = (n - (m + 1)) + 1 := by omega
    rw [stockFromTop, ih hm, hnm, pow_succ, pow_succ]
    field_simp
    ring

theorem stock_price_closed (s u d : ℝ) (hu : u ≠ 0) (n i : ℕ) (h : i ≤ n) :
    stock_price s u d n i = s * u ^ i * d ^ (n - i) := by
  rw [stock_price, stockFromTop_closed s u d hu n (n - i) (Nat.sub_le n i),
    show n - (n - i) = i by omega]

theorem stockFromTop_one (s : ℝ) (n : ℕ) :
    ∀ m, stockFromTop s 1 1 n m = s := by
  intro m
  induction m with
  | zero => simp [stockFromTop]
  | succ m ihm => rw [stockFromTop, ihm]; norm_num

/-- value of the whole array when `u = d = 1`, `p = 0`, `df = 1`: every entry
stays at the immediate payoff of the (constant) spot. -/
theorem backIter_degenerate (s sign base : ℝ) (n : ℕ) :
    ∀ kk j, backIter s 1 1 0 1 sign base n kk j = payoff sign base s := by
  intro kk
  induction kk with
  | zero =>
    intro j
    simp [backIter, terminalOption, stock_price, payoff, stockFromTop_one]
  | succ m ih =>
    intro j
    rw [backIter, backStep]
    by_cases hj : j < n - m
    · rw [if_pos hj, ih (j + 1), ih j]
      simp [max_self]
    · rw [if_neg hj, ih j]

/-- evaluating the kernel at `delta_t = 0` gives the immediate payoff. -/
theorem option_price_delta_t_zero (s k r sigma : ℝ) (cp : OptionType) (n : ℕ) :
    option_price_ s k 0 r sigma cp n = payoff (optSign cp) (optBase k cp) s := by
  unfold option_price_
  simp only [Real.sqrt_zero, mul_zero, Real.exp_zero, neg_mul, neg_zero]
  have h1 : (1 : ℝ) / 1 = 1 := by norm_num
  have h2 : ((1 : ℝ) - 1) / (1 - 1) = 0 := by norm_num
  rw [h1, h2]
  exact backIter_degenerate s (optSign cp) (optBase k cp) n n 0

end MzpricerCore

/-- C8: the terminal lattice price produced by the descending recurrence
(`S_steps = spot * u^steps`, then `S_i = S_(i+1) * (d/u)` descending) equals
the closed form `spot * u^i * d^(steps - i)` for every node index
`i ∈ [0, steps]`, where `u = exp(sigma * sqrt delta_t)` and `d = 1/u` as the
kernel computes them. -/
theorem C8_terminal_recurrence_closed_form (s sigma delta_t : ℝ) (n i : ℕ) (h : i ≤ n) :
    MzpricerCore.stock_price s (Real.exp (sigma * Real.sqrt delta_t))
        (1 / Real.exp (sigma * Real.sqrt delta_t)) n i =
      s * Real.exp (sigma * Real.sqrt delta_t) ^ i *
        (1 / Real.exp (sigma * Real.sqrt delta_t)) ^ (n - i) :=
  MzpricerCore.stock_price_closed s _ _ (Real.exp_ne_zero _) n i h

/-- witness for C8 at the concrete node `i = 1` of a `steps = 3` lattice. -/
theorem C8_terminal_recurrence_closed_form_witness :
    (1 : ℕ) ≤ 3 ∧
      MzpricerCore.stock_price 2 (Real.exp (1 * Real.sqrt 1))
          (1 / Real.exp (1 * Real.sqrt 1)) 3 1 =
        2 * Real.exp (1 * Real.sqrt 1) ^ 1 * (1 / Real.exp (1 * Real.sqrt 1)) ^ (3 - 1) :=
  ⟨by decide, C8_terminal_recurrence_closed_form 2 1 1 3 1 (by decide)⟩

/-- C7: for every input with `tYears = 0` the lattice collapses and the
scalar entry point returns the immediate payoff: `max(spot - strike, 0)` for
a call and `max(strike - spot, 0)` for a put. -/
theorem C7_zero_time_immediate_payoff (s k r sigma : ℝ) (t : MzpricerCore.TimeDuration)
    (cp : MzpricerCore.OptionType) (n : ℕ) (h : t.to_years = 0) :
    MzpricerCore.option_price_scalar s k t r sigma cp n =
      match cp with
      | MzpricerCore.OptionType.Call => max (s - k) 0
      | MzpricerCore.OptionType.Put => max (k - s) 0 := by
  rw [MzpricerCore.option_price_scalar, h, zero_div,
    MzpricerCore.option_price_delta_t_zero]
  cases cp <;> simp [MzpricerCore.payoff, MzpricerCore.optSign, MzpricerCore.optBase] <;>
    ring_nf

/-- witness for C7 at a concrete zero-length duration. -/
theorem C7_zero_time_immediate_payoff_witness :
    MzpricerCore.TimeDuration.to_years ⟨0, 365⟩ = 0 ∧
      MzpricerCore.option_price_scalar 100 90 ⟨0, 365⟩ 0.05 0.2
          MzpricerCore.OptionType.Call 500 = max (100 - 90) 0 :=
  ⟨by norm_num [MzpricerCore.TimeDuration.to_years],
    C7_zero_time_immediate_payoff 100 90 0.05 0.2 ⟨0, 365⟩ MzpricerCore.OptionType.Call 500
      (by norm_num [MzpricerCore.TimeDuration.to_years])⟩

namespace MzpricerCore

/-- Modelled from the claim C5's words: the hand-computed one-step
backward-induction value
`max(payoff(spot), df * (p * payoff(spot*u) + (1-p) * payoff(spot*d)))` with
`u = exp(vol * sqrt tYears)`, `d = 1/u`, `p = (exp(rate*tYears) - d)/(u - d)`,
`df = exp(-(rate*tYears))`, `payoff(S) = max(S-strike,0)` for a call and
`max(strike-S,0)` for a put. -/
noncomputable def oneStepSpecValue (s k tY r sigma : ℝ) (cp : OptionType) : ℝ :=
  let u := Real.exp (sigma * Real.sqrt tY)
  let d := 1 / u
  let p := (Real.exp (r * tY) - d) / (u - d)
  let df := Real.exp (-(r * tY))
  let pay : ℝ → ℝ := fun x =>
    match cp with
    | OptionType.Call => max (x - k) 0
    | OptionType.Put => max (k - x) 0
  max (pay s) (df * (p * pay (s * u) + (1 - p) * pay (s * d)))

/-- option_price_vector from lines 72-94.  The Rust loop runs over
`0..s_vec.len()` and indexes every other vector at `i` without any length
check; an out-of-bounds index panics, which the embedding models as `none`.
The error pushed for every element is `PriceError::None` (line 90). -/
noncomputable def option_price_vector (s_vec k_vec : List ℝ) (t_vec : List TimeDuration)
    (r_vec sigma_vec : List ℝ) (cp_vec : List OptionType) (precision : ℕ) :
    Option (List ℝ × List PriceError) :=
  ((List.range s_vec.length).mapM fun i =>
      (do
        let s ← s_vec[i]?
        let k ← k_vec[i]?
        let t ← t_vec[i]?
        let r ← r_vec[i]?
        let sigma ← sigma_vec[i]?
        let cp ← cp_vec[i]?
        pure (option_price_ s k (t.to_years / precision) r sigma cp precision) :
        Option ℝ)).map
    fun prices => (prices, prices.map fun _ => PriceError.None)

/-- vega_iv_finder from lines 230-238: centered finite difference in
volatility, `(price(sigma+bump) - price(sigma-bump)) / (2*bump)`. -/
noncomputable def vega_iv_finder (s k : ℝ) (t : TimeDuration) (r sigma : ℝ)
    (cp : OptionType) (n : ℕ) (bump : ℝ) : ℝ :=
  (option_price_ s k (t.to_years / n) r (sigma + bump) cp n -
    option_price_ s k (t.to_years / n) r (sigma - bump) cp n) / (2 * bump)

/-- vega from lines 224-228: `vega_iv_finder(...) / 100.0`. -/
noncomputable def vega (s k : ℝ) (t : TimeDuration) (r sigma : ℝ)
    (cp : OptionType) (n : ℕ) (bump : ℝ) : ℝ :=
  vega_iv_finder s k t r sigma cp n bump / 100

/-- theta from lines 240-260: a forward difference between the price at
`delta_t1 = to_years/precision + 1/365` (note: the bump is applied to the
per-step time increment) and the base price at `delta_t0 = to_years/precision`,
divided by `1/365`. -/
noncomputable def theta (s k : ℝ) (t : TimeDuration) (r sigma : ℝ)
    (cp : OptionType) (precision : ℕ) (price : Option ℝ) : ℝ :=
  let delta_t0 := t.to_years / precision
  let delta_t1 := t.to_years / precision + 1 / 365
  let price_0 :=
    match price with
    | some p => p
    | Option.none => option_price_ s k delta_t0 r sigma cp precision
  let price_new := option_price_ s k delta_t1 r sigma cp precision
  (price_new - price_0) / (1 / 365)

/-- possible exits of the Newton-Raphson loop of `option_iv_` (lines 188-221):
it returns at line 202 when the price error is inside tolerance, at line 211
when the finite-difference vega is below `1e-10`, and at line 220 when the
100-iteration budget is exhausted. -/
inductive IVExit
  | converged
  | vegaTooSmall
  | budgetExhausted
deriving DecidableEq, Repr

/-- the iteration of `option_iv_` (lines 199-217), instrumented with the exit
reason; `fuel` counts the remaining iterations of `for _ in 0..MAX_ITER`. -/
noncomputable def option_iv_go (price s k : ℝ) (t : TimeDuration) (r : ℝ)
    (cp : OptionType) (n : ℕ) (delta_t : ℝ) : ℕ → ℝ → ℝ → ℝ × IVExit
  | 0, candidate_sigma, _ => (candidate_sigma, IVExit.budgetExhausted)
  | fuel + 1, candidate_sigma, test_price =>
    if |test_price - price| < 0.00001 then (candidate_sigma, IVExit.converged)
    else
      let vega_value := vega_iv_finder s k t r candidate_sigma cp n 0.001
      if |vega_value| < 1e-10 then (candidate_sigma, IVExit.vegaTooSmall)
      else
        let cs2 := candidate_sigma - (test_price - price) / vega_value
        option_iv_go price s k t r cp n delta_t fuel cs2
          (option_price_ s k delta_t r cs2 cp n)

/-- option_iv_ from lines 188-221 together with its exit reason.  The Rust
function only returns the volatility (`f64`); the non-tolerance exits merely
print a warning to stderr, so the exit reason is invisible to the caller. -/
noncomputable def option_iv_run (price s k : ℝ) (t : TimeDuration) (r candidate_sigma : ℝ)
    (cp : OptionType) (precision : Option ℕ) : ℝ × IVExit :=
  let n := precision.getD 500
  let delta_t := t.to_years / n
  option_iv_go price s k t r cp n delta_t 100 candidate_sigma
    (option_price_ s k delta_t r candidate_sigma cp n)

/-- option_iv_ from lines 188-221: the value the caller actually receives. -/
noncomputable def option_iv_ (price s k : ℝ) (t : TimeDuration) (r candidate_sigma : ℝ)
    (cp : OptionType) (precision : Option ℕ) : ℝ :=
  (option_iv_run price s k t r candidate_sigma cp precision).1

/-- option_iv_vector from lines 163-185: loops over `0..s_vec.len()`, indexes
the other vectors unchecked (panic modelled as `none`), and pushes
`PriceError::None` for every element (line 181). -/
noncomputable def option_iv_vector (price_vec s_vec k_vec : List ℝ)
    (t_vec : List TimeDuration) (r_vec sigma_vec : List ℝ) (cp_vec : List OptionType)
    (precision : ℕ) : Option (List ℝ × List PriceError) :=
  ((List.range s_vec.length).mapM fun i =>
      (do
        let price ← price_vec[i]?
        let s ← s_vec[i]?
        let k ← k_vec[i]?
        let t ← t_vec[i]?
        let r ← r_vec[i]?
        let sigma ← sigma_vec[i]?
        let cp ← cp_vec[i]?
        pure (option_iv_ price s k t r sigma cp (some precision)) :
        Option ℝ)).map
    fun ivs => (ivs, ivs.map fun _ => PriceError.None)

end MzpricerCore

/-- C5: for every input, the lattice engine's price at `steps = 1` equals the
hand-computed one-step backward-induction value
`max(payoff(spot), df * (p * payoff(spot*u) + (1-p) * payoff(spot*d)))`
described by the spec (see `MzpricerCore.oneStepSpecValue`). -/
theorem C5_one_step_value (s k r sigma : ℝ) (t : MzpricerCore.TimeDuration)
    (cp : MzpricerCore.OptionType) :
    MzpricerCore.option_price_scalar s k t r sigma cp 1 =
      MzpricerCore.oneStepSpecValue s k t.to_years r sigma cp := by
  rw [MzpricerCore.option_price_scalar, MzpricerCore.option_price_,
    MzpricerCore.oneStepSpecValue]
  have hdiv : t.to_years / ((1 : ℕ) : ℝ) = t.to_years := by norm_num
  rw [hdiv]
  set u := Real.exp (sigma * Real.sqrt t.to_years) with hu
  have hu0 : u ≠ 0 := Real.exp_ne_zero _
  show MzpricerCore.backIter s u (1 / u) _ _ _ _ 1 1 0 = _
  rw [show (1 : ℕ) = 0 + 1 from rfl]
  rw [MzpricerCore.backIter, MzpricerCore.backIter, MzpricerCore.backStep]
  rw [if_pos (by norm_num : 0 < 0 + 1 - 0)]
  simp only [MzpricerCore.terminalOption, MzpricerCore.stock_price, Nat.sub_self,
    Nat.sub_zero, Nat.zero_sub, MzpricerCore.stockFromTop, pow_zero, pow_one]
  have e3 : s * u ^ (0 + 1) * (1 / u / u) = s * (1 / u) := by field_simp; ring
  have e2 : s * u ^ (0 + 1) = s * u := by ring
  have e1 : s * (1 : ℝ) * 1 = s := by ring
  rw [e3, e2, e1]
  have hneg : -r * t.to_years = -(r * t.to_years) := by ring
  rw [hneg]
  cases cp <;>
    simp only [MzpricerCore.payoff, MzpricerCore.optSign, MzpricerCore.optBase] <;>
    ring_nf

/-- C4: for every input (in particular every valid one with spot > 0,
strike > 0, tYears ≥ 0, vol > 0, steps > 0 and unrestricted rate), the
lattice engine's price `option_price_` is greater than or equal to 0; the
same holds for the scalar entry point `option_price_scalar`. -/
theorem C4_price_nonneg (s k delta_t r sigma : ℝ) (cp : MzpricerCore.OptionType) (n : ℕ)
    (t : MzpricerCore.TimeDuration) :
    0 ≤ MzpricerCore.option_price_ s k delta_t r sigma cp n ∧
      0 ≤ MzpricerCore.option_price_scalar s k t r sigma cp n := by
  constructor
  · exact MzpricerCore.backIter_nonneg _ _ _ _ _ _ _ _
  · exact MzpricerCore.backIter_nonneg _ _ _ _ _ _ _ _

/-- C1: the claim says the theta time bump adds exactly one calendar day to
the TOTAL time-to-expiry.  The code instead adds `1/365` to the PER-STEP
time increment `delta_t` (line 251), so the total time-to-expiry of the
bumped evaluation is `tYears + steps/365` — `steps` calendar days, not one.
This theorem evaluates the code: for every input with `steps > 0`, the theta
of the sensitivity layer equals the forward difference whose bumped price is
the price of a duration of `tYears + steps/365` years. -/
theorem C1_theta_bumps_steps_days (s k : ℝ) (t : MzpricerCore.TimeDuration)
    (r sigma : ℝ) (cp : MzpricerCore.OptionType) (n : ℕ) (hn : 0 < n) :
    MzpricerCore.theta s k t r sigma cp n Option.none =
      (MzpricerCore.option_price_scalar s k ⟨t.to_years + (n : ℝ) / 365, 1⟩ r sigma cp n -
          MzpricerCore.option_price_scalar s k t r sigma cp n) / (1 / 365) := by
  have hn' : ((n : ℝ)) ≠ 0 := Nat.cast_ne_zero.mpr hn.ne'
  rw [MzpricerCore.theta, MzpricerCore.option_price_scalar, MzpricerCore.option_price_scalar]
  have harg : MzpricerCore.TimeDuration.to_years ⟨t.to_years + (n : ℝ) / 365, 1⟩ / (n : ℝ) =
      t.to_years / (n : ℝ) + 1 / 365 := by
    rw [MzpricerCore.TimeDuration.to_years]
    rw [div_one, add_div, div_div, mul_comm, ← div_div, div_self hn']
  rw [harg]

/-- witness for C1 at `steps = 2`: the code's bumped total time-to-expiry is
two calendar days ahead, not one. -/
theorem C1_theta_bumps_steps_days_witness :
    0 < 2 ∧
      MzpricerCore.theta 100 100 ⟨365, 365⟩ 0.05 0.2 MzpricerCore.OptionType.Call 2
          Option.none =
        (MzpricerCore.option_price_scalar 100 100
              ⟨MzpricerCore.TimeDuration.to_years ⟨365, 365⟩ + (2 : ℕ) / 365, 1⟩ 0.05 0.2
              MzpricerCore.OptionType.Call 2 -
            MzpricerCore.option_price_scalar 100 100 ⟨365, 365⟩ 0.05 0.2
              MzpricerCore.OptionType.Call 2) / (1 / 365) :=
  ⟨by norm_num,
    C1_theta_bumps_steps_days 100 100 ⟨365, 365⟩ 0.05 0.2 MzpricerCore.OptionType.Call 2
      (by norm_num)⟩

namespace MzpricerCore

theorem zero_duration_to_years : TimeDuration.to_years ⟨0, 365⟩ = 0 := by
  norm_num [TimeDuration.to_years]

theorem put_price_zero_dt (sig : ℝ) :
    option_price_ 1 10 0 0 sig OptionType.Put 1 = 9 := by
  rw [option_price_delta_t_zero]
  norm_num [payoff, optSign, optBase]

theorem vega_zero_dt :
    vega_iv_finder 1 10 ⟨0, 365⟩ 0 0.5 OptionType.Put 1 0.001 = 0 := by
  rw [vega_iv_finder, zero_duration_to_years]
  norm_num [put_price_zero_dt]

theorem iv_run_flat_exit :
    option_iv_run 1 1 10 ⟨0, 365⟩ 0 0.5 OptionType.Put (some 1) =
      (0.5, IVExit.vegaTooSmall) := by
  rw [option_iv_run]
  simp only [Option.getD_some, Nat.cast_one, zero_duration_to_years, zero_div]
  rw [put_price_zero_dt]
  rw [show (100 : ℕ) = 99 + 1 from rfl, option_iv_go]
  rw [if_neg (by norm_num : ¬(|(9 : ℝ) - 1| < 0.00001))]
  simp only [vega_zero_dt]
  rw [if_pos (by norm_num : |(0 : ℝ)| < 1e-10)]

end MzpricerCore

/-- C2: false as stated on the code.  On an input where the solver stops
because the finite-difference vega estimate is below `1e-10` (here a
zero-length duration, where every price equals the immediate payoff and the
vega estimate is exactly 0 while the price error is 8), the batch IV path
reports `PriceError::None` for that element, not `NonConvergence`; the
scalar path returns only the bare candidate volatility. -/
theorem C2_counterexample_nonconvergence_not_reported :
    (MzpricerCore.option_iv_run 1 1 10 ⟨0, 365⟩ 0 0.5 MzpricerCore.OptionType.Put
          (some 1)).2 = MzpricerCore.IVExit.vegaTooSmall ∧
      MzpricerCore.option_iv_vector [1] [1] [10] [⟨0, 365⟩] [0] [0.5]
          [MzpricerCore.OptionType.Put] 1 =
        some ([0.5], [MzpricerCore.PriceError.None]) := by
  constructor
  · rw [MzpricerCore.iv_run_flat_exit]
  · have hiv : MzpricerCore.option_iv_ 1 1 10 ⟨0, 365⟩ 0 0.5 MzpricerCore.OptionType.Put
        (some 1) = 0.5 := by
      rw [MzpricerCore.option_iv_, MzpricerCore.iv_run_flat_exit]
    simp [MzpricerCore.option_iv_vector, hiv, List.range_succ, List.mapM.loop]

/-- C3: false as stated on the code.  A batch call whose field sequences do
not all have the length of the spot sequence performs no length check: the
loop runs over `0..s_vec.len()` and indexes the shorter sequences out of
bounds, which panics (modelled as `none`) instead of returning `BadParams`;
no `PriceError::BadParams` is ever constructed along either batch path.
Here `s_vec` has length 2 and every other sequence length 1, and both batch
entry points hit the out-of-bounds read at index 1. -/
theorem C3_counterexample_mismatched_lengths_panic :
    MzpricerCore.option_price_vector [1, 1] [1] [⟨1, 1⟩] [0] [1]
        [MzpricerCore.OptionType.Call] 1 = Option.none ∧
      MzpricerCore.option_iv_vector [1, 1] [1, 1] [1] [⟨1, 1⟩] [0] [1]
        [MzpricerCore.OptionType.Call] 1 = Option.none := by
  constructor
  · simp [MzpricerCore.option_price_vector, List.range_succ, List.mapM.loop]
  · simp [MzpricerCore.option_iv_vector, List.range_succ, List.mapM.loop]

namespace MzpricerLib

open MzpricerCore (OptionType TimeDuration PriceError optSign optBase)

/-!
The file `src/_lib.rs` contains a second, textually duplicated copy of the pricing
kernel (lines 165-217) and its own `vega` (lines 219-227).  The `OptionType`,
`TimeDuration` and `PriceError` declarations of `_lib.rs` (lines 3-48) are
field-for-field identical to the core ones, so the embedding reuses those
types and re-embeds every function of the duplicate copy separately.
-/

/-- payoff of the `_lib.rs` copy, lines 196 and 208. -/
noncomputable def payoff (sign base x : ℝ) : ℝ :=
  max (sign * x + base) 0

/-- terminal stock-price recurrence of the `_lib.rs` copy, lines 189-192. -/
noncomputable def stockFromTop (s u d : ℝ) (n : ℕ) : ℕ → ℝ
  | 0 => s * u ^ n
  | kk + 1 => stockFromTop s u d n kk * (d / u)

/-- stock_price[i] of the `_lib.rs` copy. -/
noncomputable def stock_price (s u d : ℝ) (n i : ℕ) : ℝ :=
  stockFromTop s u d n (n - i)

/-- option_price[i] after the terminal loop of the `_lib.rs` copy (194-197). -/
noncomputable def terminalOption (s u d sign base : ℝ) (n i : ℕ) : ℝ :=
  payoff sign base (stock_price s u d n i)

/-- one pass of the inner loop of the `_lib.rs` copy, lines 200-214. -/
noncomputable def backStep (s u d p df sign base : ℝ) (i : ℕ) (V : ℕ → ℝ) : ℕ → ℝ :=
  fun j =>
    if j < i then
      max (payoff sign base (s * u ^ j * d ^ (i - 1 - j)))
        ((p * V (j + 1) + (1 - p) * V j) * df)
    else V j

/-- the outer loop of the `_lib.rs` copy, lines 200-214. -/
noncomputable def backIter (s u d p df sign base : ℝ) (n : ℕ) : ℕ → (ℕ → ℝ)
  | 0 => terminalOption s u d sign base n
  | kk + 1 => backStep s u d p df sign base (n - kk) (backIter s u d p df sign base n kk)

/-- option_price_ from `src/_lib.rs` lines 165-217: the duplicated kernel. -/
noncomputable def option_price_ (s k delta_t r sigma : ℝ) (cp : OptionType) (n : ℕ) : ℝ :=
  let sign := optSign cp
  let base := optBase k cp
  let u := Real.exp (sigma * Real.sqrt delta_t)
  let d := 1 / u
  let a := Real.exp (r * delta_t)
  let p := (a - d) / (u - d)
  let df := Real.exp (-r * delta_t)
  backIter s u d p df sign base n n 0

/-- vega from `src/_lib.rs` lines 219-227: the raw centered difference, with
no division by 100. -/
noncomputable def vega (s k : ℝ) (t : TimeDuration) (r sigma : ℝ)
    (cp : OptionType) (n : ℕ) (bump : ℝ) : ℝ :=
  (option_price_ s k (t.to_years / n) r (sigma + bump) cp n -
    option_price_ s k (t.to_years / n) r (sigma - bump) cp n) / (2 * bump)

theorem stockFromTop_eq (s u d : ℝ) (n : ℕ) :
    ∀ kk, stockFromTop s u d n kk = MzpricerCore.stockFromTop s u d n kk := by
  intro kk
  induction kk with
  | zero => rfl
  | succ m ih => rw [stockFromTop, MzpricerCore.stockFromTop, ih]

theorem payoff_eq (sign base x : ℝ) :
    payoff sign base x = MzpricerCore.payoff sign base x := rfl

theorem backStep_eq (s u d p df sign base : ℝ) (i : ℕ) (V : ℕ → ℝ) :
    backStep s u d p df sign base i V = MzpricerCore.backStep s u d p df sign base i V := rfl

theorem backIter_eq (s u d p df sign base : ℝ) (n : ℕ) :
    ∀ kk, backIter s u d p df sign base n kk =
      MzpricerCore.backIter s u d p df sign base n kk := by
  intro kk
  induction kk with
  | zero =>
    funext j
    rw [backIter, MzpricerCore.backIter, terminalOption, MzpricerCore.terminalOption,
      stock_price, MzpricerCore.stock_price, stockFromTop_eq, payoff_eq]
  | succ m ih =>
    rw [backIter, MzpricerCore.backIter, ih, backStep_eq]

theorem option_price_eq (s k delta_t r sigma : ℝ) (cp : OptionType) (n : ℕ) :
    option_price_ s k delta_t r sigma cp n =
      MzpricerCore.option_price_ s k delta_t r sigma cp n := by
  rw [option_price_, MzpricerCore.option_price_, backIter_eq]

end MzpricerLib

/-- C9: for every input, the pricing kernel `option_price_` of the core
module and the duplicated `option_price_` of the `_lib.rs` export wrapper
compute exactly the same result. -/
theorem C9_core_and_wrapper_kernels_agree (s k delta_t r sigma : ℝ)
    (cp : MzpricerCore.OptionType) (n : ℕ) :
    MzpricerCore.option_price_ s k delta_t r sigma cp n =
      MzpricerLib.option_price_ s k delta_t r sigma cp n :=
  (MzpricerLib.option_price_eq s k delta_t r sigma cp n).symm

/-- C10: for every input, the core module's `vega` equals the centered
finite difference `(price(sigma+bump) - price(sigma-bump)) / (2*bump)`
divided by 100, the wrapper's `vega` equals the same centered difference
without the division by 100, and hence the core vega is the wrapper vega
divided by 100. -/
theorem C10_vega_scaling (s k : ℝ) (t : MzpricerCore.TimeDuration) (r sigma : ℝ)
    (cp : MzpricerCore.OptionType) (n : ℕ) (bump : ℝ) :
    MzpricerCore.vega s k t r sigma cp n bump =
        ((MzpricerCore.option_price_ s k (t.to_years / n) r (sigma + bump) cp n -
            MzpricerCore.option_price_ s k (t.to_years / n) r (sigma - bump) cp n) /
          (2 * bump)) / 100 ∧
      MzpricerLib.vega s k t r sigma cp n bump =
        (MzpricerLib.option_price_ s k (t.to_years / n) r (sigma + bump) cp n -
            MzpricerLib.option_price_ s k (t.to_years / n) r (sigma - bump) cp n) /
          (2 * bump) ∧
      MzpricerCore.vega s k t r sigma cp n bump =
        MzpricerLib.vega s k t r sigma cp n bump / 100 := by
  refine ⟨rfl, rfl, ?_⟩
  rw [MzpricerCore.vega, MzpricerCore.vega_iv_finder, MzpricerLib.vega,
    MzpricerLib.option_price_eq, MzpricerLib.option_price_eq]

namespace MzpricerCore

/-- risk-neutral probability exactly as the kernel computes it (lines
104-110): `p = (a - d)/(u - d)` with `u = exp(sigma*sqrt(delta_t))`,
`d = 1/u`, `a = exp(r*delta_t)`. -/
noncomputable def riskNeutralProb (delta_t r sigma : ℝ) : ℝ :=
  (Real.exp (r * delta_t) - 1 / Real.exp (sigma * Real.sqrt delta_t)) /
    (Real.exp (sigma * Real.sqrt delta_t) - 1 / Real.exp (sigma * Real.sqrt delta_t))

theorem stockFromTop_scale (s u d : ℝ) (n : ℕ) :
    ∀ kk, stockFromTop s u d n kk = s * stockFromTop 1 u d n kk := by
  intro kk
  induction kk with
  | zero => rw [stockFromTop, stockFromTop]; ring
  | succ m ih => rw [stockFromTop, stockFromTop, ih]; ring

theorem stockFromTop_one_nonneg (u d : ℝ) (hu : 0 ≤ u) (hd : 0 ≤ d) (n : ℕ) :
    ∀ kk, 0 ≤ stockFromTop 1 u d n kk := by
  intro kk
  induction kk with
  | zero => rw [stockFromTop]; positivity
  | succ m ih => rw [stockFromTop]; exact mul_nonneg ih (div_nonneg hd hu)

/-- monotonicity of the whole backward induction in the spot, for a
risk-neutral probability inside `[0,1]`, nonnegative up/down/discount
factors, and a payoff monotone along the node spots. -/
theorem backIter_mono (u d p df sign base s1 s2 : ℝ)
    (hu : 0 ≤ u) (hd : 0 ≤ d) (hdf : 0 ≤ df) (hp0 : 0 ≤ p) (hp1 : p ≤ 1)
    (hnode : ∀ c : ℝ, 0 ≤ c → payoff sign base (s1 * c) ≤ payoff sign base (s2 * c))
    (n : ℕ) :
    ∀ kk j, backIter s1 u d p df sign base n kk j ≤
      backIter s2 u d p df sign base n kk j := by
  intro kk
  induction kk with
  | zero =>
    intro j
    show terminalOption s1 u d sign base n j ≤ terminalOption s2 u d sign base n j
    rw [terminalOption, terminalOption, stock_price, stock_price,
      stockFromTop_scale s1, stockFromTop_scale s2]
    exact hnode _ (stockFromTop_one_nonneg u d hu hd n _)
  | succ m ih =>
    intro j
    rw [backIter, backIter]
    simp only [backStep]
    by_cases hj : j < n - m
    · rw [if_pos hj, if_pos hj]
      apply max_le_max
      · rw [show s1 * u ^ j * d ^ (n - m - 1 - j) = s1 * (u ^ j * d ^ (n - m - 1 - j)) by ring,
          show s2 * u ^ j * d ^ (n - m - 1 - j) = s2 * (u ^ j * d ^ (n - m - 1 - j)) by ring]
        exact hnode _ (by positivity)
      · apply mul_le_mul_of_nonneg_right _ hdf
        exact add_le_add (mul_le_mul_of_nonneg_left (ih (j + 1)) hp0)
          (mul_le_mul_of_nonneg_left (ih j) (by linarith))
    · rw [if_neg hj, if_neg hj]
      exact ih j

end MzpricerCore

/-- C6 (amended): for fixed strike, rate, duration, volatility and step
count, whenever the lattice's risk-neutral probability `p` lies inside
`[0, 1]` (which the spec's own `BadParams` discussion singles out as the
internally consistent regime), the call price is non-decreasing and the put
price is non-increasing in the spot.  The unamended claim, quantifying over
every domain-valid rate, is refuted by
`C6_counterexample_call_price_decreasing`. -/
theorem C6_amended_monotonicity_in_spot (s1 s2 k : ℝ) (t : MzpricerCore.TimeDuration)
    (r sigma : ℝ) (n : ℕ) (hs : s1 ≤ s2)
    (hp0 : 0 ≤ MzpricerCore.riskNeutralProb (t.to_years / n) r sigma)
    (hp1 : MzpricerCore.riskNeutralProb (t.to_years / n) r sigma ≤ 1) :
    MzpricerCore.option_price_scalar s1 k t r sigma MzpricerCore.OptionType.Call n ≤
        MzpricerCore.option_price_scalar s2 k t r sigma MzpricerCore.OptionType.Call n ∧
      MzpricerCore.option_price_scalar s2 k t r sigma MzpricerCore.OptionType.Put n ≤
        MzpricerCore.option_price_scalar s1 k t r sigma MzpricerCore.OptionType.Put n := by
  rw [MzpricerCore.riskNeutralProb] at hp0 hp1
  constructor
  · rw [MzpricerCore.option_price_scalar, MzpricerCore.option_price_scalar]
    show MzpricerCore.backIter s1 _ _ _ _ _ _ n n 0 ≤ MzpricerCore.backIter s2 _ _ _ _ _ _ n n 0
    apply MzpricerCore.backIter_mono _ _ _ _ _ _ _ _ (Real.exp_pos _).le
      (by positivity) (Real.exp_pos _).le hp0 hp1 _ n n 0
    intro c hc
    simp only [MzpricerCore.payoff, MzpricerCore.optSign, MzpricerCore.optBase]
    exact max_le_max (by nlinarith) le_rfl
  · rw [MzpricerCore.option_price_scalar, MzpricerCore.option_price_scalar]
    show MzpricerCore.backIter s2 _ _ _ _ _ _ n n 0 ≤ MzpricerCore.backIter s1 _ _ _ _ _ _ n n 0
    apply MzpricerCore.backIter_mono _ _ _ _ _ _ _ _ (Real.exp_pos _).le
      (by positivity) (Real.exp_pos _).le hp0 hp1 _ n n 0
    intro c hc
    simp only [MzpricerCore.payoff, MzpricerCore.optSign, MzpricerCore.optBase]
    exact max_le_max (by nlinarith) le_rfl

/-- witness for the amended C6: at a zero-length duration the risk-neutral
probability evaluates to `0/0 = 0 ∈ [0,1]` and the monotonicity conclusion
holds at spots `1 ≤ 2`. -/
theorem C6_amended_monotonicity_in_spot_witness :
    (1 : ℝ) ≤ 2 ∧
      (0 ≤ MzpricerCore.riskNeutralProb
          (MzpricerCore.TimeDuration.to_years ⟨0, 365⟩ / ((500 : ℕ) : ℝ)) 0.05 0.2 ∧
        MzpricerCore.riskNeutralProb
          (MzpricerCore.TimeDuration.to_years ⟨0, 365⟩ / ((500 : ℕ) : ℝ)) 0.05 0.2 ≤ 1) ∧
      (MzpricerCore.option_price_scalar 1 100 ⟨0, 365⟩ 0.05 0.2
            MzpricerCore.OptionType.Call 500 ≤
          MzpricerCore.option_price_scalar 2 100 ⟨0, 365⟩ 0.05 0.2
            MzpricerCore.OptionType.Call 500 ∧
        MzpricerCore.option_price_scalar 2 100 ⟨0, 365⟩ 0.05 0.2
            MzpricerCore.OptionType.Put 500 ≤
          MzpricerCore.option_price_scalar 1 100 ⟨0, 365⟩ 0.05 0.2
            MzpricerCore.OptionType.Put 500) :=
  ⟨by norm_num,
    ⟨by norm_num [MzpricerCore.riskNeutralProb, MzpricerCore.TimeDuration.to_years],
      by norm_num [MzpricerCore.riskNeutralProb, MzpricerCore.TimeDuration.to_years]⟩,
    C6_amended_monotonicity_in_spot 1 2 100 ⟨0, 365⟩ 0.05 0.2 500 (by norm_num)
      (by norm_num [MzpricerCore.riskNeutralProb, MzpricerCore.TimeDuration.to_years])
      (by norm_num [MzpricerCore.riskNeutralProb, MzpricerCore.TimeDuration.to_years])⟩

namespace MzpricerCore

/-- the full backward induction for a two-step lattice, written out. -/
theorem backIter_two (s u d p df sign base : ℝ) :
    backIter s u d p df sign base 2 2 0 =
      max (payoff sign base s)
        ((p * max (payoff sign base (s * u))
              ((p * payoff sign base (stock_price s u d 2 2) +
                  (1 - p) * payoff sign base (stock_price s u d 2 1)) * df) +
            (1 - p) * max (payoff sign base (s * d))
              ((p * payoff sign base (stock_price s u d 2 1) +
                  (1 - p) * payoff sign base (stock_price s u d 2 0)) * df)) * df) := by
  show backStep s u d p df sign base 1
      (backStep s u d p df sign base 2 (terminalOption s u d sign base 2)) 0 = _
  simp only [backStep, terminalOption]
  norm_num

theorem arith_c1a (P df T : ℝ) (hp1 : (32.36712 : ℝ) < P) (hp2 : P < 32.36720)
    (hdf1 : (0.13533528 : ℝ) < df) (hdf2 : df < 0.13533529)
    (hT : (2.71 : ℝ) ≤ T) : (9.74 : ℝ) ≤ (P * T + (1 - P) * 0.5) * df := by
  have hS : (72.0 : ℝ) ≤ P * T + (1 - P) * 0.5 := by nlinarith
  nlinarith [hS]

theorem arith_c0a (P df : ℝ) (hp1 : (32.36712 : ℝ) < P) (hp2 : P < 32.36720)
    (hdf1 : (0.13533528 : ℝ) < df) (hdf2 : df < 0.13533529) :
    (2.19 : ℝ) ≤ P * 0.5 * df ∧ P * 0.5 * df ≤ 2.20 :=
  ⟨by nlinarith, by nlinarith⟩

theorem arith_va (P df A B : ℝ) (hp1 : (32.36712 : ℝ) < P) (hp2 : P < 32.36720)
    (hdf1 : (0.13533528 : ℝ) < df) (hdf2 : df < 0.13533529)
    (hA : (9.74 : ℝ) ≤ A) (hB0 : 0 ≤ B) (hB : B ≤ 2.20) :
    (33.2 : ℝ) ≤ (P * A + (1 - P) * B) * df := by
  have hS : (246 : ℝ) ≤ P * A + (1 - P) * B := by nlinarith
  nlinarith [hS]

theorem arith_c1b (P df T : ℝ) (hp1 : (32.36712 : ℝ) < P) (hp2 : P < 32.36720)
    (hdf1 : (0.13533528 : ℝ) < df) (hdf2 : df < 0.13533529)
    (hT0 : (0 : ℝ) ≤ T) (hT : T ≤ 4.55) : (P * T + (1 - P) * 2) * df ≤ 11.45 := by
  have hS : P * T + (1 - P) * 2 ≤ (84.6 : ℝ) := by nlinarith
  nlinarith [hS]

theorem arith_c0b (P df : ℝ) (hp1 : (32.36712 : ℝ) < P) (hp2 : P < 32.36720)
    (hdf1 : (0.13533528 : ℝ) < df) (hdf2 : df < 0.13533529) :
    (8.76 : ℝ) ≤ P * 2 * df := by
  nlinarith

theorem arith_vb (P df A B : ℝ) (hp1 : (32.36712 : ℝ) < P) (hp2 : P < 32.36720)
    (hdf1 : (0.13533528 : ℝ) < df) (hdf2 : df < 0.13533529)
    (hA0 : 0 ≤ A) (hA : A ≤ 11.45) (hB : (8.76 : ℝ) ≤ B) :
    (P * A + (1 - P) * B) * df ≤ 13 := by
  have hS : P * A + (1 - P) * B ≤ (96 : ℝ) := by nlinarith
  nlinarith [hS]

end MzpricerCore

set_option maxHeartbeats 1000000 in
/-- C6 counterexample: the claim quantifies over every domain-valid rate,
but the code computes through risk-neutral probabilities outside `[0,1]`.
At strike 9.5, duration ⟨2,1⟩ (two years), rate 2, volatility 0.1 and two
steps (so per-step `Δt = 1` and `p ≈ 32.4 > 1`), the call price at spot 10
is at least 33.2 while at the larger spot 11.5 it is at most 13: the call
price strictly DECREASES from spot 10 to spot 11.5, refuting the claimed
monotonicity. -/
theorem C6_counterexample_call_price_decreasing :
    (10 : ℝ) ≤ 11.5 ∧
      MzpricerCore.option_price_scalar 11.5 9.5 ⟨2, 1⟩ 2 0.1
          MzpricerCore.OptionType.Call 2 <
        MzpricerCore.option_price_scalar 10 9.5 ⟨2, 1⟩ 2 0.1
          MzpricerCore.OptionType.Call 2 := by
  refine ⟨by norm_num, ?_⟩
  have harg : MzpricerCore.TimeDuration.to_years ⟨2, 1⟩ / ((2 : ℕ) : ℝ) = 1 := by
    norm_num [MzpricerCore.TimeDuration.to_years]
  rw [MzpricerCore.option_price_scalar, MzpricerCore.option_price_scalar,
    MzpricerCore.option_price_, MzpricerCore.option_price_, harg]
  rw [Real.sqrt_one, mul_one, mul_one, mul_one]
  rw [MzpricerCore.backIter_two, MzpricerCore.backIter_two]
  have hu0 : (0 : ℝ) < Real.exp 0.1 := Real.exp_pos _
  have hne : Real.exp 0.1 ≠ 0 := ne_of_gt hu0
  have hsp2 : ∀ s : ℝ, MzpricerCore.stock_price s (Real.exp 0.1) (1 / Real.exp 0.1) 2 2 =
      s * Real.exp 0.1 ^ 2 := fun s => rfl
  have hsp1 : ∀ s : ℝ, MzpricerCore.stock_price s (Real.exp 0.1) (1 / Real.exp 0.1) 2 1 =
      s := fun s => by
    show s * Real.exp 0.1 ^ 2 * (1 / Real.exp 0.1 / Real.exp 0.1) = s
    rw [div_div, ← pow_two, mul_one_div, mul_div_assoc, div_self (pow_ne_zero 2 hne), mul_one]
  have hsp0 : ∀ s : ℝ, MzpricerCore.stock_price s (Real.exp 0.1) (1 / Real.exp 0.1) 2 0 =
      s / Real.exp 0.1 ^ 2 := fun s => by
    show s * Real.exp 0.1 ^ 2 * (1 / Real.exp 0.1 / Real.exp 0.1) *
        (1 / Real.exp 0.1 / Real.exp 0.1) = s / Real.exp 0.1 ^ 2
    have h1 : s * Real.exp 0.1 ^ 2 * (1 / Real.exp 0.1 / Real.exp 0.1) = s := hsp1 s
    rw [h1, div_div, ← pow_two, mul_one_div]
  simp only [hsp2, hsp1, hsp0, MzpricerCore.payoff, MzpricerCore.optSign,
    MzpricerCore.optBase, one_mul]
  set u := Real.exp 0.1 with hu_def
  set P := (Real.exp 2 - 1 / u) / (u - 1 / u) with hP_def
  set df := Real.exp (-2) with hdf_def
  have hu10 : u ^ 10 = Real.exp 1 := by
    rw [hu_def, ← Real.exp_nat_mul]
    norm_num
  have hu20 : u ^ 20 = Real.exp 2 := by
    rw [hu_def, ← Real.exp_nat_mul]
    norm_num
  have hu1 : (1.105170918 : ℝ) < u := by
    by_contra hcon
    push_neg at hcon
    have h1 : u ^ 10 ≤ (1.105170918 : ℝ) ^ 10 := pow_le_pow_left hu0.le hcon 10
    have h2 : ((1.105170918 : ℝ)) ^ 10 < 2.7182818283 := by norm_num
    have h3 := Real.exp_one_gt_d9
    rw [hu10] at h1
    linarith
  have hu2 : u < (1.105170919 : ℝ) := by
    by_contra hcon
    push_neg at hcon
    have h1 : (1.105170919 : ℝ) ^ 10 ≤ u ^ 10 := pow_le_pow_left (by norm_num) hcon 10
    have h2 : (2.7182818286 : ℝ) < ((1.105170919 : ℝ)) ^ 10 := by norm_num
    have h3 := Real.exp_one_lt_d9
    rw [hu10] at h1
    linarith
  have hu2l : (1.22140275 : ℝ) < u ^ 2 := by nlinarith
  have hu2u : u ^ 2 < (1.22140277 : ℝ) := by nlinarith
  have hE2l : (7.38905608 : ℝ) < Real.exp 2 := by
    rw [← hu20]
    calc (7.38905608 : ℝ) < (1.105170918 : ℝ) ^ 20 := by norm_num
    _ < u ^ 20 := pow_lt_pow_left hu1 (by norm_num) (by norm_num)
  have hE2u : Real.exp 2 < (7.38905623 : ℝ) := by
    rw [← hu20]
    calc u ^ 20 < (1.105170919 : ℝ) ^ 20 := pow_lt_pow_left hu2 hu0.le (by norm_num)
    _ < (7.38905623 : ℝ) := by norm_num
  have hiu1 : (0.904837417 : ℝ) < 1 / u :=
    lt_trans (by norm_num) (one_div_lt_one_div_of_lt hu0 hu2)
  have hiu2 : 1 / u < (0.904837419 : ℝ) :=
    lt_trans (one_div_lt_one_div_of_lt (by norm_num) hu1) (by norm_num)
  have hdfE : df * Real.exp 2 = 1 := by
    rw [hdf_def, ← Real.exp_add]
    norm_num
  have hdf0 : (0 : ℝ) < df := Real.exp_pos _
  have hdf1 : (0.13533528 : ℝ) < df := by nlinarith
  have hdf2 : df < (0.13533529 : ℝ) := by nlinarith
  have hden1 : (0.200333498 : ℝ) < u - 1 / u := by linarith
  have hden2 : u - 1 / u < (0.200333502 : ℝ) := by linarith
  have hPmul : P * (u - 1 / u) = Real.exp 2 - 1 / u := by
    rw [hP_def]
    exact div_mul_cancel₀ _ (by linarith)
  have hp1 : (32.36712 : ℝ) < P := by nlinarith
  have hp2 : P < (32.36720 : ℝ) := by nlinarith
  clear_value u P df
  clear hu10 hu20 hPmul hdfE hne hu_def hP_def hdf_def hsp2 hsp1 hsp0 harg hE2l hE2u
  have h2a : ((11.5 : ℝ) + -9.5) ⊔ 0 = 2 := by
    rw [max_eq_left (by norm_num : (0 : ℝ) ≤ 11.5 + -9.5)]
    norm_num
  have h05 : ((10 : ℝ) + -9.5) ⊔ 0 = 0.5 := by
    rw [max_eq_left (by norm_num : (0 : ℝ) ≤ 10 + -9.5)]
    norm_num
  have hT0b : ((11.5 : ℝ) / u ^ 2 + -9.5) ⊔ 0 = 0 := by
    refine max_eq_right ?_
    have hx : (11.5 : ℝ) / u ^ 2 ≤ 9.5 := by
      rw [div_le_iff (by positivity)]
      nlinarith
    linarith
  have hT0a : ((10 : ℝ) / u ^ 2 + -9.5) ⊔ 0 = 0 := by
    refine max_eq_right ?_
    have hx : (10 : ℝ) / u ^ 2 ≤ 9.5 := by
      rw [div_le_iff (by positivity)]
      nlinarith
    linarith
  rw [h2a, h05, hT0b, hT0a]
  simp only [mul_zero, add_zero]
  have hT2a_l : (2.71 : ℝ) ≤ ((10 : ℝ) * u ^ 2 + -9.5) ⊔ 0 :=
    le_trans (by nlinarith) (le_max_left _ _)
  have hC1a_l : (9.74 : ℝ) ≤ (P * (((10 : ℝ) * u ^ 2 + -9.5) ⊔ 0) + (1 - P) * 0.5) * df :=
    MzpricerCore.arith_c1a P df _ hp1 hp2 hdf1 hdf2 hT2a_l
  have hW1a_l : (9.74 : ℝ) ≤ ((10 : ℝ) * u + -9.5) ⊔ 0 ⊔
      ((P * (((10 : ℝ) * u ^ 2 + -9.5) ⊔ 0) + (1 - P) * 0.5) * df) :=
    le_trans hC1a_l (le_max_right _ _)
  have hC0a := MzpricerCore.arith_c0a P df hp1 hp2 hdf1 hdf2
  have hW0a_u : ((10 : ℝ) * (1 / u) + -9.5) ⊔ 0 ⊔ (P * 0.5 * df) ≤ 2.20 := by
    refine max_le (max_le ?_ (by norm_num)) hC0a.2
    nlinarith
  have hW0a_l : (0 : ℝ) ≤ ((10 : ℝ) * (1 / u) + -9.5) ⊔ 0 ⊔ (P * 0.5 * df) :=
    le_trans (le_max_right _ _) (le_max_left _ _)
  have hv1_l : (33.2 : ℝ) ≤
      (P * (((10 : ℝ) * u + -9.5) ⊔ 0 ⊔
          ((P * (((10 : ℝ) * u ^ 2 + -9.5) ⊔ 0) + (1 - P) * 0.5) * df)) +
        (1 - P) * (((10 : ℝ) * (1 / u) + -9.5) ⊔ 0 ⊔ (P * 0.5 * df))) * df :=
    MzpricerCore.arith_va P df _ _ hp1 hp2 hdf1 hdf2 hW1a_l hW0a_l hW0a_u
  have hT2b_u : ((11.5 : ℝ) * u ^ 2 + -9.5) ⊔ 0 ≤ 4.55 :=
    max_le (by nlinarith) (by norm_num)
  have hT2b_l : (0 : ℝ) ≤ ((11.5 : ℝ) * u ^ 2 + -9.5) ⊔ 0 := le_max_right _ _
  have hC1b_u : (P * (((11.5 : ℝ) * u ^ 2 + -9.5) ⊔ 0) + (1 - P) * 2) * df ≤ 11.45 :=
    MzpricerCore.arith_c1b P df _ hp1 hp2 hdf1 hdf2 hT2b_l hT2b_u
  have hW1b_u : ((11.5 : ℝ) * u + -9.5) ⊔ 0 ⊔
      ((P * (((11.5 : ℝ) * u ^ 2 + -9.5) ⊔ 0) + (1 - P) * 2) * df) ≤ 11.45 := by
    refine max_le (max_le ?_ (by norm_num)) hC1b_u
    nlinarith
  have hW1b_l : (0 : ℝ) ≤ ((11.5 : ℝ) * u + -9.5) ⊔ 0 ⊔
      ((P * (((11.5 : ℝ) * u ^ 2 + -9.5) ⊔ 0) + (1 - P) * 2) * df) :=
    le_trans (le_max_right _ _) (le_max_left _ _)
  have hW0b_l : (8.76 : ℝ) ≤ ((11.5 : ℝ) * (1 / u) + -9.5) ⊔ 0 ⊔ (P * 2 * df) :=
    le_trans (MzpricerCore.arith_c0b P df hp1 hp2 hdf1 hdf2) (le_max_right _ _)
  have hv2_u :
      (2 : ℝ) ⊔ ((P * (((11.5 : ℝ) * u + -9.5) ⊔ 0 ⊔
          ((P * (((11.5 : ℝ) * u ^ 2 + -9.5) ⊔ 0) + (1 - P) * 2) * df)) +
        (1 - P) * (((11.5 : ℝ) * (1 / u) + -9.5) ⊔ 0 ⊔ (P * 2 * df))) * df) ≤ 13 :=
    max_le (by norm_num)
      (MzpricerCore.arith_vb P df _ _ hp1 hp2 hdf1 hdf2 hW1b_l hW1b_u hW0b_l)
  refine lt_of_le_of_lt hv2_u (lt_of_lt_of_le (by norm_num) (le_trans hv1_l (le_max_right _ _)))
